import Mathlib

/-!
Verification of the repeated-run supervisor of this repository
(`run_eternal_pain_loop.py` and `run_eternal_happy_loop.py`; the two
scripts share the launch / timeout-escalation / signal-handling logic
verbatim, so one embedding covers both).

The embedding translates, statement by statement, the functions
`Runner._run_with_timeout`, `Runner._run_neuron`, `Runner.ensure_generated`,
the closure `_handle_sig` installed by `main` for SIGINT/SIGTERM, and the
`try/except subprocess.CalledProcessError` around `runner.run_once()` in
the main loop.  External behaviour of the launched child (whether it exits
within the per-run timeout, whether it exits within the 5-second grace
window after SIGINT, its captured output, its exit code) is a parameter of
the model, as are filesystem facts (model file present, generated NEURON
driver script present, mod files present).
-/

namespace EternalLoop

/-- Signals the supervisor can send to the process group of the child. -/
inductive Sig where
  | sigint
  | sigkill
deriving DecidableEq

/-- One signal sent by the supervisor: target process-group id and signal. -/
structure SigEvent where
  pgid : Nat
  sig : Sig
deriving DecidableEq

/-- The grace window of `proc.communicate(timeout=5)` after SIGINT in
`Runner._run_with_timeout` (both scripts, hard-coded literal `5`). -/
def gracePeriodS : Nat := 5

/-- The `time.sleep(0.5)` in `_handle_sig`, in milliseconds. -/
def interruptSleepMs : Nat := 500

/-- The `sys.exit(130)` sentinel in `_handle_sig`. -/
def supervisorInterruptExitCode : Nat := 130

/-- Behaviour of one launched child process, as observed by the supervisor.
`pgid` is the value of `os.getpgid(proc.pid)` after the Popen with
`preexec_fn=os.setsid`.  `exitsWithinTimeout` is whether
`proc.communicate(timeout=self.timeout_s)` returns rather than raising
`subprocess.TimeoutExpired`; `exitsWithinGrace` is the same for the second
`proc.communicate(timeout=5)` after SIGINT.  `exitCode` is the exit status
of the child when it terminates on its own; note that
`Runner._run_with_timeout` never reads `proc.returncode`, so no component
of the model result may depend on this field.  `stdoutText` and
`stderrText` are the captured streams (the Python code treats the empty
string as falsy and skips the corresponding write). -/
structure ChildBehavior where
  pgid : Nat
  exitsWithinTimeout : Bool
  exitCode : Int
  exitsWithinGrace : Bool
  stdoutText : String
  stderrText : String
deriving DecidableEq

/-- Result of one execution of `Runner._run_with_timeout`: the signals sent
to the process group of the child in order, the grace wait the escalation
performed (`none` when the child completed within the timeout), the value
of `self.current_pgid` after the `finally` block, and the lines printed. -/
structure RunResult where
  sent : List SigEvent
  graceWaitS : Option Nat
  finalPgid : Option Nat
  logs : List String
deriving DecidableEq

/-- The `if stdout: sys.stdout.write(stdout)` and
`if stderr: sys.stderr.write(stderr)` pairs after `proc.communicate`. -/
def drainOutputs (c : ChildBehavior) : List String :=
  (if c.stdoutText = "" then [] else [c.stdoutText]) ++
  (if c.stderrText = "" then [] else [c.stderrText])

/-- Model of `Runner._run_with_timeout` (identical in both scripts):
launch the child in its own process group and record its pgid; if
`proc.communicate(timeout=self.timeout_s)` returns, drain the captured
output and send nothing; on `subprocess.TimeoutExpired`, send SIGINT to
the process group, wait up to `gracePeriodS` via
`proc.communicate(timeout=5)`, and on a second `TimeoutExpired` send
SIGKILL to the same group.  The `finally` block always resets
`self.current_pgid` to `None`. -/
def runWithTimeout (cmd : List String) (c : ChildBehavior) : RunResult :=
  let cmdLine := "[CMD:timeout] " ++ String.intercalate " " cmd
  if c.exitsWithinTimeout then
    { sent := []
      graceWaitS := none
      finalPgid := none
      logs := cmdLine :: drainOutputs c }
  else
    if c.exitsWithinGrace then
      { sent := [⟨c.pgid, Sig.sigint⟩]
        graceWaitS := some gracePeriodS
        finalPgid := none
        logs := cmdLine :: "[TIMEOUT] Sending SIGINT to process group..." :: drainOutputs c }
    else
      { sent := [⟨c.pgid, Sig.sigint⟩, ⟨c.pgid, Sig.sigkill⟩]
        graceWaitS := some gracePeriodS
        finalPgid := none
        logs := [cmdLine,
                 "[TIMEOUT] Sending SIGINT to process group...",
                 "[TIMEOUT] Process did not exit after SIGINT; sending SIGKILL..."] }

/-- Result of one invocation of the `_handle_sig` closure: the signals it
sends, the fixed sleep before terminating, the `sys.exit` code, and the
line it prints. -/
structure HandlerResult where
  sent : List SigEvent
  sleepMs : Nat
  exitCode : Nat
  logs : List String
deriving DecidableEq

/-- Model of `_handle_sig` (installed for both SIGINT and SIGTERM by
`main` in both scripts): print the interrupt banner; if
`runner.current_pgid` is not `None`, send SIGINT to that process group
(errors from `os.killpg` are swallowed); then `time.sleep(0.5)` and
`sys.exit(130)`.  The handler keeps no flag and installs no guard, so its
behaviour depends only on the current pgid it observes. -/
def handleSig (currentPgid : Option Nat) : HandlerResult :=
  { sent := match currentPgid with
            | some g => [⟨g, Sig.sigint⟩]
            | none => []
    sleepMs := interruptSleepMs
    exitCode := supervisorInterruptExitCode
    logs := ["[INTERRUPT] Caught signal. Stopping current run and exiting..."] }

/-- Signals sent when a second interrupt of the same kind is delivered
while the first invocation of `_handle_sig` is inside its
`time.sleep(0.5)`: the nested invocation observes the same unchanged
`runner.current_pgid` (the main loop is suspended, and the only reset of
`current_pgid` is the `finally` block of `_run_with_timeout`, which has
not run), so both invocations execute the same send. -/
def handleSigTwice (g : Nat) : List SigEvent :=
  (handleSig (some g)).sent ++ (handleSig (some g)).sent

/-- Signals sent by `n` successive deliveries of interrupt signals while
the same child is running, each nested handler invocation observing the
same `current_pgid`. -/
def handleSigRepeated (g : Nat) : Nat → List SigEvent
  | 0 => []
  | n + 1 => (handleSig (some g)).sent ++ handleSigRepeated g n

/-- Exceptions that can escape `runner.run_once()` into the main loop.
`calledProcessError` is raised by `subprocess.run(..., check=True)` in
`Runner._run_checked` when the command exits non-zero;
`fileNotFoundError` is raised by `subprocess.Popen` or `subprocess.run`
when the executable cannot be found or spawned (a launch failure);
`systemExit` is raised by `sys.exit` in `_handle_sig`. -/
inductive Exc where
  | calledProcessError (returncode : Int) (cmd : List String)
  | fileNotFoundError (executable : String)
  | systemExit (code : Nat)
deriving DecidableEq

/-- Outcome of one iteration of the `while True` loop in `main`: either the
loop continues to the `[DONE]` line and the 2-second sleep (with the error
lines the `except` clause printed), or the exception propagates out of
`main` and the supervisor process dies. -/
inductive CycleOutcome where
  | continues (errorLines : List String)
  | supervisorDies (e : Exc)
deriving DecidableEq

/-- The single failure-reporting line either script ever prints for a
child exit code: the `except subprocess.CalledProcessError` clause in
`main`. -/
def nonZeroExitLogLine (rc : Int) (cmd : List String) : String :=
  "[ERROR] Command failed with exit code " ++ toString rc ++ ": " ++
    String.intercalate " " cmd

/-- Model of the `try: runner.run_once() except subprocess.CalledProcessError`
protection in the main loop of both scripts: only `CalledProcessError`
is caught (and logged with one line); any other exception propagates out
of `main`. -/
def loopStep (runOutcome : Except Exc Unit) : CycleOutcome :=
  match runOutcome with
  | Except.ok _ => CycleOutcome.continues []
  | Except.error (Exc.calledProcessError rc cmd) =>
      CycleOutcome.continues [nonZeroExitLogLine rc cmd]
  | Except.error e => CycleOutcome.supervisorDies e

/-- One supervisor-observable micro-state during `Runner._run_with_timeout`:
the value of `self.current_pgid` and whether the child process has already
been reaped (a `proc.communicate` call has returned, which calls `wait`).
A Python signal handler can run between any two statements, so each of
these states is one at which `_handle_sig` may be invoked. -/
structure MicroState where
  currentPgid : Option Nat
  childReaped : Bool
deriving DecidableEq

/-- How one execution of `Runner._run_with_timeout` ends. `interrupted`
is the case in which a delivered signal runs `_handle_sig`, whose
`sys.exit(130)` raises `SystemExit` inside the in-flight
`proc.communicate`; the `try/finally` still resets `current_pgid` while
the exception propagates. -/
inductive WaitOutcome where
  | completes
  | timesOutGrace
  | timesOutKill
  | interrupted
deriving DecidableEq

/-- Sequence of micro-states passed through by one execution of
`Runner._run_with_timeout` whose child has process group `g`.  After
`proc.communicate` returns, the child is reaped but `current_pgid` still
holds its group id while the captured stdout and stderr are written; only
the `finally` block clears it. -/
def runTrace (g : Nat) (w : WaitOutcome) : List MicroState :=
  ⟨none, false⟩ ::                 -- before subprocess.Popen
  ⟨some g, false⟩ ::               -- after current_pgid = os.getpgid(proc.pid)
  (match w with
   | WaitOutcome.completes =>
       [⟨some g, true⟩,            -- communicate returned: reaped, output drain
        ⟨none, true⟩]              -- finally: current_pgid = None
   | WaitOutcome.timesOutGrace =>
       [⟨some g, false⟩,           -- TimeoutExpired caught, SIGINT sent
        ⟨some g, true⟩,            -- grace communicate returned: reaped, drain
        ⟨none, true⟩]              -- finally
   | WaitOutcome.timesOutKill =>
       [⟨some g, false⟩,           -- SIGINT sent
        ⟨some g, false⟩,           -- grace expired, SIGKILL sent; never reaped here
        ⟨none, false⟩]             -- finally
   | WaitOutcome.interrupted =>
       [⟨none, false⟩])            -- finally runs while SystemExit propagates

/-- The execution backends accepted by `parse_args`. -/
inductive Backend where
  | jnml
  | neuron
deriving DecidableEq

/-- The externally visible operations the supervisor performs, used to
state where in `main` the model-generation collaborator can run. -/
inductive Action where
  | generateModel          -- running gen_script via _run_checked (ensure_generated)
  | neuronCodegen          -- pynml LEMS -neuron
  | compileMods            -- nrnivmodl
  | launchChild            -- the Popen inside _run_with_timeout
  | analyze                -- analyze_motor_activity.py (only when SHOW_GRAPH=1)
  | sleepInterval          -- the time.sleep(2) at the end of each iteration
deriving DecidableEq

/-- Model of `Runner.ensure_generated`: the generation collaborator runs
exactly when the LEMS model file does not already exist. -/
def ensureGenerated (lemsExists : Bool) : List Action :=
  if lemsExists then [] else [Action.generateModel]

/-- Operations attempted by `Runner.run_once`: backend dispatch to
`_run_neuron` (codegen, optional mod compilation, launch when the driver
script exists) or `_run_jnml` (launch), then the optional analysis step.
An exception aborts a suffix of this list but never adds operations. -/
def runOnceActions (b : Backend) (hasMods nrnPyExists showGraph : Bool) :
    List Action :=
  (match b with
   | Backend.jnml => [Action.launchChild]
   | Backend.neuron =>
       Action.neuronCodegen ::
         ((if hasMods then [Action.compileMods] else []) ++
          (if nrnPyExists then [Action.launchChild] else []))) ++
  (if showGraph then [Action.analyze] else [])

/-- One iteration of the `while True` loop in `main`: `run_once` under its
`except` clause, then the inter-cycle sleep. -/
def cycleActions (b : Backend) (hasMods nrnPyExists showGraph : Bool) :
    List Action :=
  runOnceActions b hasMods nrnPyExists showGraph ++ [Action.sleepInterval]

/-- The first `n` iterations of the main loop. -/
def loopActions (b : Backend) (hasMods nrnPyExists showGraph : Bool) :
    Nat → List Action
  | 0 => []
  | n + 1 =>
      cycleActions b hasMods nrnPyExists showGraph ++
        loopActions b hasMods nrnPyExists showGraph n

/-- Operations of `main` through `n` loop iterations:
`runner.ensure_generated()` runs once, before the loop is entered. -/
def mainActions (lemsExists : Bool) (b : Backend)
    (hasMods nrnPyExists showGraph : Bool) (n : Nat) : List Action :=
  ensureGenerated lemsExists ++ loopActions b hasMods nrnPyExists showGraph n

/-- Model of the filesystem and collaborator facts `Runner._run_neuron`
branches on: the exit status of the checked `pynml ... -neuron` codegen
command, whether any `.mod` file is present in the examples directory,
whether `nrnivmodl` succeeds, and whether the generated NEURON driver
script exists after codegen. -/
structure NeuronEnv where
  codegenReturncode : Int
  hasMods : Bool
  nrnivmodlOk : Bool
  nrnPyExists : Bool
deriving DecidableEq

/-- Result of a completed `Runner._run_neuron`: whether the simulation
child was launched through `_run_with_timeout`, the signals that launch
sent, and the lines printed. -/
structure NeuronRun where
  launched : Bool
  sent : List SigEvent
  logs : List String
deriving DecidableEq

/-- The `self.lems_file.replace(".xml", "_nrn.py")` computation. -/
def nrnPyName (lemsFile : String) : String :=
  lemsFile.replace ".xml" "_nrn.py"

/-- Model of `Runner._run_neuron` (identical in both scripts): run the
checked codegen command (raising `CalledProcessError` on a non-zero exit);
if mod files are present, attempt `nrnivmodl` inside
`try: ... except Exception: pass`, so its failure changes nothing
downstream; if the generated driver script does not exist, print a
warning and return without launching; otherwise launch the NEURON child
under `_run_with_timeout`. -/
def runNeuron (lemsFile : String) (env : NeuronEnv) (c : ChildBehavior) :
    Except Exc NeuronRun :=
  let codegenLog := "[CMD] pynml " ++ lemsFile ++ " -neuron"
  if env.codegenReturncode ≠ 0 then
    Except.error (Exc.calledProcessError env.codegenReturncode
      ["pynml", lemsFile, "-neuron"])
  else
    let modLogs := if env.hasMods then ["[CMD] nrnivmodl"] else []
    let nrnPy := nrnPyName lemsFile
    if env.nrnPyExists then
      let r := runWithTimeout ["nrniv", "-python", nrnPy] c
      Except.ok
        { launched := true
          sent := r.sent
          logs := codegenLog :: modLogs ++
            ("[INFO] Running NEURON: " ++ nrnPy) :: r.logs }
    else
      Except.ok
        { launched := false
          sent := []
          logs := codegenLog :: modLogs ++
            ["[WARN] " ++ nrnPy ++ " not found; skipping NEURON run."] }

/-- Character-level test that `pat` is an initial segment of `l`. -/
def beginsWith : List Char → List Char → Bool
  | [], _ => true
  | _ :: _, [] => false
  | p :: ps, c :: cs => p == c && beginsWith ps cs

/-- Whether a log line is a failure-classification line.  The only line
either script ever prints to report a failing child exit status is the
`[ERROR] Command failed with exit code ...` line of the
`except subprocess.CalledProcessError` clause in `main`, so a line
classifies a failure exactly when it carries the `[ERROR]` tag. -/
def isErrorLine (s : String) : Bool := beginsWith "[ERROR]".data s.data

/-- Log lines printed by one jnml-backend iteration of the main loop when
the child runs to completion or timeout without external interrupt:
the `[RUN]` stamp, the banner lines of `run_once` and `_run_jnml`, the
output of `_run_with_timeout`, and the `[DONE]` stamp.  The timestamps
are wall-clock strings and enter as parameters. -/
def cycleLogsJnml (startTs endTs : String) (timeoutS : Nat)
    (lemsFile : String) (c : ChildBehavior) : List String :=
  ("[RUN] " ++ startTs) ::
  ("[INFO] Running backend=jnml with timeout=" ++ toString timeoutS ++ "s") ::
  ("[INFO] Running jNeuroML: " ++ lemsFile) ::
  ((runWithTimeout ["pynml", lemsFile] c).logs ++ ["[DONE] " ++ endTs])

/-! ## Helper lemmas -/

/-- No branch of one loop iteration runs the model-generation collaborator. -/
theorem cycle_count_gen_zero (b : Backend) (hm np sg : Bool) :
    (cycleActions b hm np sg).count Action.generateModel = 0 := by
  cases b <;> cases hm <;> cases np <;> cases sg <;> decide

/-- No prefix of the main loop runs the model-generation collaborator. -/
theorem loop_count_gen_zero (b : Backend) (hm np sg : Bool) (n : Nat) :
    (loopActions b hm np sg n).count Action.generateModel = 0 := by
  induction n with
  | zero => rfl
  | succ n ih =>
      simp [loopActions, List.count_append, ih, cycle_count_gen_zero]

/-! ## Claims -/

/-- C1 (confirmed): for every run whose child does not exit within the
configured timeout, `_run_with_timeout` first sends SIGINT to the
process group of the child, then waits up to the fixed 5-second grace
window of `proc.communicate(timeout=5)`; if the child still has not
exited when the grace window elapses it sends SIGKILL to the same group,
and the sent-signal sequence shows SIGKILL is never sent before SIGINT. -/
theorem C1_timeout_escalation_protocol (cmd : List String)
    (c : ChildBehavior) (h : c.exitsWithinTimeout = false) :
    (runWithTimeout cmd c).sent =
      (if c.exitsWithinGrace then [⟨c.pgid, Sig.sigint⟩]
       else [⟨c.pgid, Sig.sigint⟩, ⟨c.pgid, Sig.sigkill⟩]) ∧
    (runWithTimeout cmd c).graceWaitS = some gracePeriodS ∧
    gracePeriodS = 5 := by
  cases hg : c.exitsWithinGrace <;> simp [runWithTimeout, h, hg, gracePeriodS]

/-- Witness for C1 at a concrete child that ignores both the timeout and
the graceful signal: SIGINT then SIGKILL, with the 5-second grace wait. -/
theorem C1_timeout_escalation_protocol_witness :
    (⟨7, false, 0, false, "", ""⟩ : ChildBehavior).exitsWithinTimeout = false ∧
    ((runWithTimeout ["pynml", "LEMS_c302_A_EternalPain.xml"]
        ⟨7, false, 0, false, "", ""⟩).sent =
      [⟨7, Sig.sigint⟩, ⟨7, Sig.sigkill⟩] ∧
     (runWithTimeout ["pynml", "LEMS_c302_A_EternalPain.xml"]
        ⟨7, false, 0, false, "", ""⟩).graceWaitS = some gracePeriodS ∧
     gracePeriodS = 5) :=
  ⟨rfl, by
    have h := C1_timeout_escalation_protocol
      ["pynml", "LEMS_c302_A_EternalPain.xml"] ⟨7, false, 0, false, "", ""⟩ rfl
    exact ⟨h.1, h.2⟩⟩

/-- C2 (counterexample): the claim states that on an external interrupt
the supervisor performs the same escalation as on timeout expiry and, if
the child has not exited after the grace period, sends a forceful kill.
The handler `_handle_sig` sends no SIGKILL on any input: it sends one
SIGINT, sleeps 500 ms and raises `SystemExit`, so for a child that never
exits the forceful kill claimed to be sent does not exist. -/
theorem C2_counterexample_no_forceful_on_interrupt :
    ¬ (∃ e ∈ (handleSig (some 42)).sent, e.sig = Sig.sigkill) := by decide

/-- C2 (amended): for every external interrupt received while a child is
running, `_handle_sig` sends exactly one graceful SIGINT to the process
group of the child and zero forceful signals, performs no grace-period
wait, and after the fixed 500 ms sleep terminates the supervisor with
exit code 130; escalation to SIGKILL happens only on the timeout path. -/
theorem C2_interrupt_single_graceful_then_exit (g : Nat) :
    (handleSig (some g)).sent = [⟨g, Sig.sigint⟩] ∧
    (handleSig (some g)).sleepMs = interruptSleepMs ∧
    (handleSig (some g)).exitCode = supervisorInterruptExitCode := ⟨rfl, rfl, rfl⟩

/-- C3 (counterexample): the claim states that only the first interrupt
signal triggers escalation and every subsequent one sends no additional
signal.  A second signal delivered during the 500 ms sleep of the first
handler invocation re-enters `_handle_sig` with `current_pgid` unchanged
and sends a second SIGINT: two deliveries send two signals, not one. -/
theorem C3_counterexample_second_signal_resends :
    handleSigTwice 7 = [⟨7, Sig.sigint⟩, ⟨7, Sig.sigint⟩] ∧
    (handleSigTwice 7).length ≠ 1 := by decide

/-- C3 (amended): there is no idempotence guard in `_handle_sig`; every
delivered interrupt observed while `current_pgid` is set re-enters the
handler and sends one more graceful signal to the same process group, so
`n` deliveries before process exit send `n` SIGINTs. -/
theorem C3_each_delivery_sends_graceful (g n : Nat) :
    handleSigRepeated g n = List.replicate n (⟨g, Sig.sigint⟩ : SigEvent) := by
  induction n with
  | zero => rfl
  | succ n ih => simp [handleSigRepeated, handleSig, ih, List.replicate_succ]

/-- C4 (counterexample): the claim states that a cycle whose child
executable cannot be found or spawned is caught by the loop, logged, and
the loop proceeds.  The `except` clause of the loop catches only
`subprocess.CalledProcessError`; the `FileNotFoundError` raised by a
failed spawn propagates and the supervisor process dies. -/
theorem C4_counterexample_launch_failure_kills_supervisor :
    ¬ (∃ logs, loopStep (Except.error (Exc.fileNotFoundError "nrniv")) =
        CycleOutcome.continues logs) := by
  rintro ⟨logs, h⟩
  simp [loopStep] at h

/-- C4 (amended): the loop catches exactly the non-zero exits of checked
commands (`CalledProcessError`), logging one error line and continuing;
a launch failure (`FileNotFoundError`) propagates out of the loop and is
fatal to the supervisor, not merely to the cycle. -/
theorem C4_only_nonzero_exit_of_checked_commands_caught (rc : Int)
    (cmd : List String) (exe : String) :
    loopStep (Except.error (Exc.calledProcessError rc cmd)) =
      CycleOutcome.continues [nonZeroExitLogLine rc cmd] ∧
    loopStep (Except.error (Exc.fileNotFoundError exe)) =
      CycleOutcome.supervisorDies (Exc.fileNotFoundError exe) ∧
    loopStep (Except.ok ()) = CycleOutcome.continues [] := ⟨rfl, rfl, rfl⟩

/-- C5 (counterexample): the claim states that a child completing within
the timeout with a non-zero exit code produces exactly one log line
naming the NonZeroExit classification.  For a concrete cycle whose child
exits with code 1, the cycle log is identical to the log of the same
cycle with exit code 0 and contains zero failure-classification lines,
although the `[ERROR]` tag test does recognise the one classification
line format the scripts possess. -/
theorem C5_counterexample_silent_nonzero_exit :
    cycleLogsJnml "2026-01-01T00:00:00" "2026-01-01T00:00:12" 30
        "LEMS_c302_A_EternalPain.xml" ⟨42, true, 1, true, "", ""⟩ =
      cycleLogsJnml "2026-01-01T00:00:00" "2026-01-01T00:00:12" 30
        "LEMS_c302_A_EternalPain.xml" ⟨42, true, 0, true, "", ""⟩ ∧
    ((cycleLogsJnml "2026-01-01T00:00:00" "2026-01-01T00:00:12" 30
        "LEMS_c302_A_EternalPain.xml" ⟨42, true, 1, true, "", ""⟩).filter
      isErrorLine).length = 0 ∧
    isErrorLine (nonZeroExitLogLine 1
      ["pynml", "LEMS_c302_A_EternalPain.xml"]) = true := by
  exact ⟨rfl, by decide, by decide⟩

/-- C5 (amended): `_run_with_timeout` never reads the exit code of the
child, so the whole behaviour of the supervisor after a run that
completed within the timeout is independent of that code and a non-zero
exit of the timeout-wrapped child is silent; only checked commands run
through `_run_checked` surface a failing exit code, as the single
`[ERROR]` line printed by the `CalledProcessError` clause of `main`. -/
theorem C5_exit_code_ignored_by_run_with_timeout (cmd : List String)
    (c : ChildBehavior) (e : Int) (rc : Int) (checkedCmd : List String) :
    runWithTimeout cmd { c with exitCode := e } = runWithTimeout cmd c ∧
    loopStep (Except.error (Exc.calledProcessError rc checkedCmd)) =
      CycleOutcome.continues [nonZeroExitLogLine rc checkedCmd] := by
  constructor
  · cases c
    rfl
  · rfl

/-- C6 (counterexample): the claim states that the signal handler never
sends a signal to a stale or already-reaped process group.  After
`proc.communicate` returns, the child is reaped but `current_pgid` still
holds its group id while the captured output is written; this state is
reachable in the normal-completion execution of `_run_with_timeout`, and
a handler invocation there sends SIGINT to the already-reaped group. -/
theorem C6_counterexample_signal_in_reaped_window :
    (⟨some 42, true⟩ : MicroState) ∈ runTrace 42 WaitOutcome.completes ∧
    (handleSig (some 42)).sent = [⟨42, Sig.sigint⟩] := by
  exact ⟨by decide, rfl⟩

/-- C6 (amended): throughout every execution of `_run_with_timeout` the
stored `current_pgid` is either absent or the group of the one current
child, it is reset to `None` on every exit path including the
exceptional one, the handler sends nothing when no group is recorded,
and each loop iteration launches at most one child; however, between the
reaping of the child and the `finally` reset there is a window in which
a delivered signal is forwarded to the already-reaped group. -/
theorem C6_pgid_cleared_and_guarded (g : Nat) (w : WaitOutcome) :
    ((runTrace g w).getLast?).map MicroState.currentPgid = some none ∧
    (∀ s ∈ runTrace g w, s.currentPgid = none ∨ s.currentPgid = some g) ∧
    (handleSig none).sent = [] ∧
    (∀ b hm np sg, (cycleActions b hm np sg).count Action.launchChild ≤ 1) := by
  refine ⟨by cases w <;> rfl, ?_, rfl, ?_⟩
  · cases w <;> (intro s hs; simp [runTrace] at hs) <;>
      rcases hs with rfl | rfl | rfl | rfl | rfl <;> simp
  · intro b hm np sg
    cases b <;> cases hm <;> cases np <;> cases sg <;> decide

/-- Witness for C6 (amended), discharging the trace-membership hypothesis
at the drain-window state of the normal-completion execution. -/
theorem C6_pgid_cleared_and_guarded_witness :
    (⟨some 5, true⟩ : MicroState).currentPgid = none ∨
    (⟨some 5, true⟩ : MicroState).currentPgid = some 5 :=
  (C6_pgid_cleared_and_guarded 5 WaitOutcome.completes).2.1
    ⟨some 5, true⟩ (by decide)

/-- C7 (confirmed): for every run whose child exits on its own before the
configured timeout elapses (no external interrupt arriving), the
supervisor sends no signal of any kind to the process group of that
child, and no grace wait occurs. -/
theorem C7_clean_exit_no_signals (cmd : List String) (c : ChildBehavior)
    (h : c.exitsWithinTimeout = true) :
    (runWithTimeout cmd c).sent = [] ∧
    (runWithTimeout cmd c).graceWaitS = none := by
  simp [runWithTimeout, h]

/-- Witness for C7 at a concrete child exiting normally with code 0. -/
theorem C7_clean_exit_no_signals_witness :
    (⟨9, true, 0, true, "out", ""⟩ : ChildBehavior).exitsWithinTimeout = true ∧
    ((runWithTimeout ["pynml", "LEMS_c302_A_Happiness.xml"]
        ⟨9, true, 0, true, "out", ""⟩).sent = [] ∧
     (runWithTimeout ["pynml", "LEMS_c302_A_Happiness.xml"]
        ⟨9, true, 0, true, "out", ""⟩).graceWaitS = none) :=
  ⟨rfl, C7_clean_exit_no_signals ["pynml", "LEMS_c302_A_Happiness.xml"]
    ⟨9, true, 0, true, "out", ""⟩ rfl⟩

/-- C8 (confirmed): for every operator-originated interrupt, `_handle_sig`
forwards the graceful signal to the active process group when one is
recorded (and nothing otherwise), then sleeps the fixed 500 ms and
terminates the supervisor with the fixed sentinel exit code 130. -/
theorem C8_interrupt_fixed_delay_and_exit_code (pg : Option Nat) :
    (handleSig pg).sent =
      (match pg with | some g => [⟨g, Sig.sigint⟩] | none => []) ∧
    (handleSig pg).sleepMs = 500 ∧
    (handleSig pg).exitCode = 130 := by
  cases pg <;> exact ⟨rfl, rfl, rfl⟩

/-- C9 (confirmed): `ensure_generated` runs exactly once, before the first
loop iteration; when the model file already exists at startup, the
model-generation collaborator is not invoked at all, and no branch of
any loop iteration can invoke it. -/
theorem C9_generation_once_before_loop (lemsExists : Bool) (b : Backend)
    (hm np sg : Bool) (n : Nat) :
    (mainActions lemsExists b hm np sg n).count Action.generateModel =
      (if lemsExists then 0 else 1) ∧
    Action.generateModel ∉ cycleActions b hm np sg := by
  constructor
  · cases lemsExists <;>
      simp [mainActions, ensureGenerated, List.count_append, loop_count_gen_zero]
  · intro hmem
    have h0 := cycle_count_gen_zero b hm np sg
    rw [List.count_eq_zero] at h0
    exact h0 hmem

/-- C10 (confirmed): for every neuron-backend cycle whose generated
driver script (the LEMS file name with `.xml` replaced by `_nrn.py`)
does not exist after code generation, `_run_neuron` prints the warning
and returns without launching any simulation child and without any
timeout wait; and a failure of the `nrnivmodl` compilation step is
swallowed and never changes the outcome of the cycle. -/
theorem C10_missing_driver_skips_run (lemsFile : String) (env : NeuronEnv)
    (c : ChildBehavior) (hok : env.codegenReturncode = 0)
    (hno : env.nrnPyExists = false) :
    runNeuron lemsFile env c =
      Except.ok
        { launched := false
          sent := []
          logs := ("[CMD] pynml " ++ lemsFile ++ " -neuron") ::
            (if env.hasMods then ["[CMD] nrnivmodl"] else []) ++
            ["[WARN] " ++ nrnPyName lemsFile ++ " not found; skipping NEURON run."] } ∧
    (∀ b1 b2 : Bool,
      runNeuron lemsFile { env with nrnivmodlOk := b1 } c =
      runNeuron lemsFile { env with nrnivmodlOk := b2 } c) := by
  constructor
  · simp [runNeuron, hok, hno]
  · intro b1 b2
    cases env
    rfl

/-- Witness for C10 at a concrete environment where codegen succeeds, mod
files are present, `nrnivmodl` fails, and the driver script is missing. -/
theorem C10_missing_driver_skips_run_witness :
    runNeuron "LEMS_c302_A_EternalPain.xml" ⟨0, true, false, false⟩
        ⟨42, true, 0, true, "", ""⟩ =
      Except.ok
        { launched := false
          sent := []
          logs := ["[CMD] pynml LEMS_c302_A_EternalPain.xml -neuron",
            "[CMD] nrnivmodl",
            "[WARN] " ++ nrnPyName "LEMS_c302_A_EternalPain.xml" ++
              " not found; skipping NEURON run."] } :=
  (C10_missing_driver_skips_run "LEMS_c302_A_EternalPain.xml"
    ⟨0, true, false, false⟩ ⟨42, true, 0, true, "", ""⟩ rfl rfl).1

end EternalLoop
